import Mathlib

/-!
Shallow embedding of the task-status board and integration-toast code of the
project-management frontend:

* data model from frontend/src/types/index.ts;
* the toast context from components/common/ToastContainer.tsx;
* the status-change handlers from components/tasks/TaskBoard.tsx;
* the edit-task submit handler from components/tasks/EditTaskModal.tsx;
* the comment submit handler from components/tasks/TaskCommentsPanel.tsx.

Awaited Apollo mutate calls are represented by a `MutateResult` value supplied
by the environment: `resolved payload` for a settled call (with errorPolicy
"all" a GraphQL error also settles, possibly with a missing payload) and
`thrown` for a rejected call (transport failure). Handlers are functions from
their inputs and the mutate result to a record of their observable effects.
-/

namespace ProjMgmt

/-- Task status enumeration from types/index.ts. -/
inductive TaskStatus where
  | TODO
  | IN_PROGRESS
  | DONE
deriving DecidableEq

/-- Organization record from types/index.ts (fields the embedded handlers read). -/
structure Organization where
  id : String
  name : String
  slug : String
  contactEmail : String
deriving DecidableEq

/-- Project record from types/index.ts (fields the embedded handlers read). -/
structure Project where
  id : String
  name : String
  organization : Organization
deriving DecidableEq

/-- Task record from types/index.ts (fields the embedded handlers read or
write). An absent assignee is the empty string, as in the JS truthiness test
`if (task.assigneeEmail)`. -/
structure Task where
  id : String
  title : String
  description : String
  status : TaskStatus
  assigneeEmail : String
  dueDate : Option String
deriving DecidableEq

/-- Toast type union from Toast.tsx. -/
inductive ToastType where
  | success
  | error
  | info
  | warning
deriving DecidableEq

/-- ToastMessage from Toast.tsx. -/
structure ToastMessage where
  id : String
  type : ToastType
  title : String
  message : Option String
  duration : Option Nat
  icon : Option String
deriving DecidableEq

/-- A toast without its id, as in the `Omit` argument type of addToast. -/
structure ToastInput where
  type : ToastType
  title : String
  message : Option String
  duration : Option Nat
  icon : Option String
deriving DecidableEq

/-- addToast from ToastContainer.tsx: appends one toast under a fresh id. The
id produced by `Date.now` plus `Math.random` is supplied as a parameter. -/
def addToast (toasts : List ToastMessage) (freshId : String) (t : ToastInput) :
    List ToastMessage :=
  toasts ++ [{ id := freshId, type := t.type, title := t.title,
               message := t.message, duration := t.duration, icon := t.icon }]

/-- removeToast from ToastContainer.tsx. -/
def removeToast (toasts : List ToastMessage) (i : String) : List ToastMessage :=
  toasts.filter (fun t => t.id != i)

/-- The two integration services of showIntegrationToast. -/
inductive IntegrationService where
  | email
  | slack
deriving DecidableEq

/-- Per-service icon and display name from showIntegrationToast. -/
structure ServiceConfig where
  icon : String
  name : String

/-- serviceConfig table from showIntegrationToast in ToastContainer.tsx. -/
def serviceConfig : IntegrationService → ServiceConfig
  | .email => { icon := "📧", name := "Email" }
  | .slack => { icon := "💬", name := "Slack" }

/-- The optional `to target` suffix of the toast message template. -/
def targetSuffix : Option String → String
  | some t => " to " ++ t
  | none => ""

/-- showIntegrationToast from ToastContainer.tsx. -/
def showIntegrationToast (toasts : List ToastMessage) (freshId : String)
    (service : IntegrationService) (action : String) (target : Option String) :
    List ToastMessage :=
  let config := serviceConfig service
  addToast toasts freshId
    { type := .info
      title := config.name ++ " Integration"
      message := some (action ++ targetSuffix target)
      icon := some config.icon
      duration := some 4000 }

/-- The value carried by ToastContext: the three operations handed out by the
provider, each expressed as a pure transformer of the toast list. -/
structure ToastContextType where
  addToast : List ToastMessage → String → ToastInput → List ToastMessage
  removeToast : List ToastMessage → String → List ToastMessage
  showIntegrationToast :
    List ToastMessage → String → IntegrationService → String → Option String →
      List ToastMessage

/-- The context value installed by ToastProvider. -/
def providerValue : ToastContextType :=
  { addToast := addToast
    removeToast := removeToast
    showIntegrationToast := showIntegrationToast }

/-- useToast from ToastContainer.tsx: `useContext` yields the provider value or
nothing; absent a provider the hook throws. -/
def useToast (ctx : Option ToastContextType) : Except String ToastContextType :=
  match ctx with
  | none => Except.error "useToast must be used within a ToastProvider"
  | some c => Except.ok c

/-- Response payload of the UpdateTaskStatus and UpdateTask mutations
(graphql/mutations.ts): task, success, errors. -/
structure UpdateStatusPayload where
  success : Bool
  errors : List String
  task : Option Task
deriving DecidableEq

/-- Response payload of the AddTaskComment mutation (graphql/mutations.ts):
success and errors (the returned comment is never read by the handlers). -/
structure CommentPayload where
  success : Bool
  errors : List String
deriving DecidableEq

/-- How an awaited Apollo mutate call settles. `resolved none` is a settled
call whose `data` carries no payload (as happens for a GraphQL error under
errorPolicy "all"); `thrown` is a rejected call (transport failure). -/
inductive MutateResult (α : Type) where
  | resolved (payload : Option α)
  | thrown
deriving DecidableEq

/-- The JS truthiness of `result.data?.updateTaskStatus?.success`. -/
def payloadSuccess (p : Option UpdateStatusPayload) : Bool :=
  match p with
  | some q => q.success
  | none => false

/-- The JS truthiness of `result.data?.addTaskComment?.success`. -/
def commentSuccess (p : Option CommentPayload) : Bool :=
  match p with
  | some q => q.success
  | none => false

/-- The `active.id` and `over.id` of a dnd-kit DragEndEvent, each absent when
the corresponding reference is missing. -/
structure DragEndEvent where
  active : Option String
  over : Option String
deriving DecidableEq

/-- statusMapping from handleDragEnd in TaskBoard.tsx: drop-zone ids of the
three droppable columns to task statuses; anything else is unmapped. -/
def statusMapping : String → Option TaskStatus
  | "column-TODO" => some .TODO
  | "column-IN_PROGRESS" => some .IN_PROGRESS
  | "column-DONE" => some .DONE
  | _ => none

/-- The `useDroppable` id of each status column in TaskBoard.tsx. -/
def columnId : TaskStatus → String
  | .TODO => "column-TODO"
  | .IN_PROGRESS => "column-IN_PROGRESS"
  | .DONE => "column-DONE"

/-- The DragEndEvent produced by dropping the task with id `taskId` onto the
column of status `s`. -/
def dropEvent (taskId : String) (s : TaskStatus) : DragEndEvent :=
  { active := some taskId, over := some (columnId s) }

/-- The data a validated drag-end guard chain hands to the mutate call:
the dragged task id, the target status, and the found task record. -/
structure StatusRequest where
  taskId : String
  newStatus : TaskStatus
  currentTask : Task
deriving DecidableEq

/-- The guard chain of handleDragEnd (TaskBoard.tsx lines 79 to 102), run
before the mutate call: missing active or over reference, an unmapped drop
zone, an unknown task id, or a target status equal to the current status all
return early with no effects. -/
def dragEndRequest (tasks : List Task) (event : DragEndEvent) :
    Option StatusRequest :=
  match event.over, event.active with
  | some dropZone, some taskId =>
    match statusMapping dropZone with
    | none => none
    | some newStatus =>
      match tasks.find? (fun t => t.id == taskId) with
      | none => none
      | some currentTask =>
        if currentTask.status = newStatus then none
        else some { taskId := taskId, newStatus := newStatus,
                    currentTask := currentTask }
  | _, _ => none

/-- One recorded invocation of showIntegrationToast: service, action text and
target, as passed at the call sites in TaskBoard.tsx. -/
structure ToastCall where
  service : IntegrationService
  action : String
  target : Option String
deriving DecidableEq

/-- The toast block run after a settled updateTaskStatus call, appearing
verbatim in both handleDragEnd and handleMobileStatusChange: an email toast
when the task has a non-empty assignee address, then one slack toast whose
text depends on whether the new status is DONE. -/
def statusChangeToasts (currentTask : Task) (newStatus : TaskStatus)
    (orgSlug : String) : List ToastCall :=
  (if currentTask.assigneeEmail ≠ "" then
    [{ service := .email, action := "Status update sent",
       target := some currentTask.assigneeEmail }]
   else []) ++
  [if newStatus = TaskStatus.DONE then
    { service := .slack, action := "Task completion posted",
      target := some ("#" ++ orgSlug) }
   else
    { service := .slack, action := "Status change posted",
      target := some ("#" ++ orgSlug) }]

/-- Observable effects of one run of a TaskBoard status-change handler:
the variables of the updateTaskStatus call if one was issued, the task record
placed in the optimisticResponse if one was built, the showIntegrationToast
invocations in order, the number of console.error calls, and the errors made
visible to the user through component state (TaskBoard holds no such state, so
this list stays empty on every path). -/
structure BoardEffects where
  gatewayCall : Option (String × TaskStatus)
  optimisticWrite : Option Task
  toasts : List ToastCall
  consoleErrors : Nat
  reportedErrors : List String
deriving DecidableEq

/-- The effects of a handler run that returned early. -/
def noBoardEffects : BoardEffects :=
  { gatewayCall := none, optimisticWrite := none, toasts := [],
    consoleErrors := 0, reportedErrors := [] }

/-- handleDragEnd from TaskBoard.tsx: after the guard chain, the mutate call is
issued with an optimisticResponse carrying the current task at the new status;
when the call settles the toast block runs unconditionally; when it rejects the
catch block only logs to the console. -/
def handleDragEnd (tasks : List Task) (project : Project)
    (event : DragEndEvent) (outcome : MutateResult UpdateStatusPayload) :
    BoardEffects :=
  match dragEndRequest tasks event with
  | none => noBoardEffects
  | some req =>
    let opt : Task := { req.currentTask with status := req.newStatus }
    match outcome with
    | .thrown =>
      { gatewayCall := some (req.taskId, req.newStatus),
        optimisticWrite := some opt, toasts := [], consoleErrors := 1,
        reportedErrors := [] }
    | .resolved _ =>
      { gatewayCall := some (req.taskId, req.newStatus),
        optimisticWrite := some opt,
        toasts := statusChangeToasts req.currentTask req.newStatus
          project.organization.slug,
        consoleErrors := 0, reportedErrors := [] }

/-- handleMobileStatusChange from TaskBoard.tsx: a same-status request returns
early; otherwise the mutate call is issued with the analogous
optimisticResponse and the same toast block and catch block. -/
def handleMobileStatusChange (task : Task) (newStatus : TaskStatus)
    (project : Project) (outcome : MutateResult UpdateStatusPayload) :
    BoardEffects :=
  if task.status = newStatus then noBoardEffects
  else
    let opt : Task := { task with status := newStatus }
    match outcome with
    | .thrown =>
      { gatewayCall := some (task.id, newStatus), optimisticWrite := some opt,
        toasts := [], consoleErrors := 1, reportedErrors := [] }
    | .resolved _ =>
      { gatewayCall := some (task.id, newStatus), optimisticWrite := some opt,
        toasts := statusChangeToasts task newStatus project.organization.slug,
        consoleErrors := 0, reportedErrors := [] }

/-- A normalized cache write: the tasks whose id matches the written record are
replaced by it. -/
def writeTask (tasks : List Task) (w : Task) : List Task :=
  tasks.map (fun u => if u.id = w.id then w else u)

/-- The status of the first task with the given id, as the board columns read
it from the query data. -/
def currentStatus (tasks : List Task) (taskId : String) : Option TaskStatus :=
  (tasks.find? (fun t => t.id == taskId)).map (fun t => t.status)

/-- The task list as rendered while the mutate call is in flight: the
optimisticResponse task, if one was built, written over the cached list. -/
def optimisticStore (tasks : List Task) (eff : BoardEffects) : List Task :=
  match eff.optimisticWrite with
  | none => tasks
  | some t => writeTask tasks t

/-- The cache content for the request once the mutate call settles, modelling
the Apollo behavior the component relies on (the code comments in
TaskBoard.tsx: the optimisticResponse only provides immediate feedback, the
cache is updated only for a successful mutation, and optimistic updates are
reverted automatically on error, with refetchQueries restoring the
authoritative rows): the optimistic layer is discarded, and only a successful
payload writes its authoritative task. -/
def storeAfterResolution (tasks : List Task)
    (outcome : MutateResult UpdateStatusPayload) : List Task :=
  match outcome with
  | .thrown => tasks
  | .resolved none => tasks
  | .resolved (some p) =>
    if p.success then
      match p.task with
      | some w => writeTask tasks w
      | none => tasks
    else tasks

/-- The form values handed to handleSubmit in EditTaskModal.tsx. The status
select only offers the three task statuses. -/
structure SubmitValues where
  title : String
  description : String
  status : TaskStatus
  assigneeEmail : String
  dueDate : String
deriving DecidableEq

/-- formatDateForInput from EditTaskModal.tsx: a falsy date string yields the
empty string, otherwise the JS pipeline `new Date(s).toISOString().slice(0,16)`
runs; that platform conversion is supplied as the parameter `jsInputFormat`. -/
def formatDateForInput (jsInputFormat : String → String)
    (dateString : Option String) : String :=
  match dateString with
  | none => ""
  | some s => if s = "" then "" else jsInputFormat s

/-- The variables of an UpdateTask mutation call as built in the full-update
branch of handleSubmit. -/
structure UpdateTaskVars where
  id : String
  title : String
  description : String
  assigneeEmail : String
  dueDate : Option String
deriving DecidableEq

/-- Observable effects of one run of EditTaskModal.handleSubmit: the
updateTaskStatus calls, the updateTask calls, the error list placed in
component state by setErrors, whether onClose ran, and the
showIntegrationToast invocations (the modal imports no toast hook, so this
list stays empty on every path). -/
structure ModalEffects where
  statusCalls : List (String × TaskStatus)
  updateCalls : List UpdateTaskVars
  errors : List String
  closed : Bool
  toasts : List ToastCall
deriving DecidableEq

/-- handleSubmit from EditTaskModal.tsx. When only the status changed, the
quick updateTaskStatus path runs: success closes the modal, a settled failure
surfaces the payload errors (or a fallback message), a rejection surfaces the
generic network message. Otherwise the full updateTask path runs, followed on
success by a separate status update whose result is not checked but whose
rejection still lands in the catch block. `jsInputFormat` and `jsIsoFormat`
stand for the JS date conversions; `updateOutcome` and `statusOutcome` are how
the two mutate calls would settle. -/
def editTaskHandleSubmit (task : Task) (jsInputFormat jsIsoFormat : String → String)
    (values : SubmitValues) (updateOutcome : MutateResult UpdateStatusPayload)
    (statusOutcome : MutateResult UpdateStatusPayload) : ModalEffects :=
  let statusChanged := values.status != task.status
  let otherFieldsChanged :=
    values.title != task.title || values.description != task.description ||
    values.assigneeEmail != task.assigneeEmail ||
    formatDateForInput jsInputFormat task.dueDate != values.dueDate
  if statusChanged && !otherFieldsChanged then
    match statusOutcome with
    | .thrown =>
      { statusCalls := [(task.id, values.status)], updateCalls := [],
        errors := ["Network error. Please try again."], closed := false,
        toasts := [] }
    | .resolved payload =>
      if payloadSuccess payload then
        { statusCalls := [(task.id, values.status)], updateCalls := [],
          errors := [], closed := true, toasts := [] }
      else
        { statusCalls := [(task.id, values.status)], updateCalls := [],
          errors := (match payload with
                     | some p => p.errors
                     | none => ["Failed to update task status"]),
          closed := false, toasts := [] }
  else
    let dueDateVar : Option String :=
      if values.dueDate != "" then some (jsIsoFormat values.dueDate) else none
    let vars : UpdateTaskVars :=
      { id := task.id, title := values.title,
        description := values.description,
        assigneeEmail := values.assigneeEmail, dueDate := dueDateVar }
    match updateOutcome with
    | .thrown =>
      { statusCalls := [], updateCalls := [vars],
        errors := ["Network error. Please try again."], closed := false,
        toasts := [] }
    | .resolved payload =>
      if payloadSuccess payload then
        if statusChanged then
          match statusOutcome with
          | .thrown =>
            { statusCalls := [(task.id, values.status)], updateCalls := [vars],
              errors := ["Network error. Please try again."], closed := false,
              toasts := [] }
          | .resolved _ =>
            { statusCalls := [(task.id, values.status)], updateCalls := [vars],
              errors := [], closed := true, toasts := [] }
        else
          { statusCalls := [], updateCalls := [vars], errors := [],
            closed := true, toasts := [] }
      else
        { statusCalls := [], updateCalls := [vars],
          errors := (match payload with
                     | some p => p.errors
                     | none => ["Failed to update task"]),
          closed := false, toasts := [] }

/-- Membership in the JS regex whitespace class, over the characters that occur
in the embedded inputs (space, tab, line and page breaks, no-break space). -/
def isJsSpace (c : Char) : Bool :=
  c = ' ' || c = '\t' || c = '\n' || c = '\r' ||
  c = Char.ofNat 11 || c = Char.ofNat 12 || c = Char.ofNat 160

/-- No character of the string is in the whitespace class. -/
def noJsSpace (s : String) : Bool :=
  s.toList.all (fun c => !isJsSpace c)

/-- The author-email test of TaskCommentsPanel.handleSubmit, the regex of one
or more characters outside whitespace and at-sign, an at-sign, more such
characters, a dot, and more such characters: exactly one at-sign, no
whitespace, a non-empty part before the at-sign, and a dot strictly inside the
part after it. -/
def validEmailFormat (s : String) : Bool :=
  match s.splitOn "@" with
  | [localPart, domainPart] =>
    localPart ≠ "" && noJsSpace localPart && noJsSpace domainPart &&
    (List.range domainPart.length).any
      (fun i =>
        domainPart.toList.getD i ' ' = '.' && 0 < i &&
        i + 1 < domainPart.length)
  | _ => false

/-- The comment form fields of TaskCommentsPanel. -/
structure CommentFormState where
  newComment : String
  authorEmail : String
deriving DecidableEq

/-- Observable effects of one run of TaskCommentsPanel.handleSubmit: the
addTaskComment calls (task id, content, author email), the error string placed
in component state, whether the two fields were cleared, and the
showIntegrationToast invocations (the panel imports no toast hook, so this
list stays empty on every path). -/
structure CommentPanelEffects where
  commentCalls : List (String × String × String)
  error : String
  cleared : Bool
  toasts : List ToastCall
deriving DecidableEq

/-- handleSubmit from TaskCommentsPanel.tsx: empty fields and a malformed
author email are rejected locally; otherwise the addTaskComment mutation runs
with the trimmed fields, success clears the form, a settled failure surfaces
the first payload error (or a fallback), and a rejection surfaces the generic
network message. -/
def commentPanelSubmit (task : Task) (st : CommentFormState)
    (outcome : MutateResult CommentPayload) : CommentPanelEffects :=
  if st.newComment.trim = "" || st.authorEmail.trim = "" then
    { commentCalls := [], error := "Both comment and email are required",
      cleared := false, toasts := [] }
  else if !validEmailFormat st.authorEmail then
    { commentCalls := [], error := "Please enter a valid email address",
      cleared := false, toasts := [] }
  else
    let call := (task.id, st.newComment.trim, st.authorEmail.trim)
    match outcome with
    | .thrown =>
      { commentCalls := [call], error := "Network error. Please try again.",
        cleared := false, toasts := [] }
    | .resolved payload =>
      if commentSuccess payload then
        { commentCalls := [call], error := "", cleared := true, toasts := [] }
      else
        { commentCalls := [call],
          error := (match payload with
                    | some p =>
                      match p.errors with
                      | [] => "Failed to add comment"
                      | e :: _ => if e = "" then "Failed to add comment" else e
                    | none => "Failed to add comment"),
          cleared := false, toasts := [] }

/-- Event kinds of the integration orchestrator, from the spec data model. -/
inductive EventKind where
  | ASSIGNED
  | STATUS_CHANGED
  | COMPLETED
  | COMMENTED
deriving DecidableEq

/-- The two delivery channels of the orchestrator. -/
inductive Channel where
  | email
  | chat
deriving DecidableEq

/-- Modelled from the spec: the channel-selection rules of the backend
NotificationOrchestrator (integrations/signals.py and services.py of the
backend are not among the sources). ASSIGNED goes to the email channel when an
assignee address is present; STATUS_CHANGED and COMPLETED go to the email
channel when an assignee address is present and to the chat channel always;
COMMENTED goes to the email channel only, notifying the assignee when present
and different from the comment author. -/
def channelsFor (assignee : Option String) (author : Option String) :
    EventKind → List Channel
  | .ASSIGNED =>
    match assignee with
    | some _ => [.email]
    | none => []
  | .STATUS_CHANGED =>
    (match assignee with
     | some _ => [Channel.email]
     | none => []) ++ [.chat]
  | .COMPLETED =>
    (match assignee with
     | some _ => [Channel.email]
     | none => []) ++ [.chat]
  | .COMMENTED =>
    match assignee with
    | some a => if some a ≠ author then [.email] else []
    | none => []

/-- A concrete organization, matching the demo data of the repository. -/
def org0 : Organization :=
  { id := "org-1", name := "Acme Corp", slug := "acme-corp",
    contactEmail := "hq@acme.example" }

/-- A concrete project in `org0`. -/
def proj0 : Project :=
  { id := "proj-1", name := "Website", organization := org0 }

/-- A concrete task with an assignee, currently TODO. -/
def task0 : Task :=
  { id := "task-1", title := "Fix login bug", description := "",
    status := TaskStatus.TODO, assigneeEmail := "john@example.com",
    dueDate := none }

/-- A settled successful payload carrying the authoritative task at DONE. -/
def okPayload : UpdateStatusPayload :=
  { success := true, errors := [],
    task := some { task0 with status := TaskStatus.DONE } }

/-- A settled failing payload, as a gateway rejection under errorPolicy "all"
delivers it. -/
def failPayload : UpdateStatusPayload :=
  { success := false, errors := ["Status change rejected"], task := none }

/-- The form values that change only the status of `task0`, to DONE. -/
def values0 : SubmitValues :=
  { title := task0.title, description := task0.description,
    status := TaskStatus.DONE, assigneeEmail := task0.assigneeEmail,
    dueDate := "" }

theorem statusMapping_columnId (s : TaskStatus) :
    statusMapping (columnId s) = some s := by
  cases s <;> rfl

theorem find_writeTask (tasks : List Task) (t w : Task) (hid : w.id = t.id)
    (h : tasks.find? (fun u => u.id == t.id) = some t) :
    (writeTask tasks w).find? (fun u => u.id == t.id) = some w := by
  induction tasks with
  | nil => simp [List.find?] at h
  | cons a l ih =>
    cases hpa : (a.id == t.id) with
    | true =>
      have hat : a = t := by
        simpa only [List.find?_cons, hpa, Option.some.injEq] using h
      have haw : a.id = w.id := by rw [hat, ← hid]
      have hw : writeTask (a :: l) w = w :: writeTask l w := by
        simp [writeTask, haw]
      have hwt : (w.id == t.id) = true := beq_iff_eq.mpr hid
      rw [hw]
      simp only [List.find?_cons, hwt]
    | false =>
      have h2 : List.find? (fun u => u.id == t.id) l = some t := by
        simpa only [List.find?_cons, hpa] using h
      have haw : ¬a.id = w.id := by
        intro hh
        rw [hh.trans hid] at hpa
        simp at hpa
      have hw : writeTask (a :: l) w = a :: writeTask l w := by
        simp [writeTask, haw]
      rw [hw]
      simp only [List.find?_cons, hpa]
      exact ih h2

theorem dragEndRequest_drop (tasks : List Task) (t : Task) (s : TaskStatus)
    (hfind : tasks.find? (fun u => u.id == t.id) = some t)
    (hne : t.status ≠ s) :
    dragEndRequest tasks (dropEvent t.id s) =
      some { taskId := t.id, newStatus := s, currentTask := t } := by
  simp only [dragEndRequest, dropEvent, statusMapping_columnId, hfind]
  rw [if_neg hne]

theorem currentStatus_writeTask (tasks : List Task) (t w : Task)
    (hid : w.id = t.id)
    (hfind : tasks.find? (fun u => u.id == t.id) = some t) :
    currentStatus (writeTask tasks w) t.id = some w.status := by
  unfold currentStatus
  rw [find_writeTask tasks t w hid hfind]
  rfl

/-- C4: for every board task and every status distinct from its current one,
dropping the task onto that status column, or choosing that status in the
mobile menu, builds an optimisticResponse carrying the task at the new status,
so the locally visible status equals the requested status whatever the mutate
call later returns. -/
theorem C4_optimistic_status_write (tasks : List Task) (t : Task)
    (s : TaskStatus) (proj : Project)
    (hfind : tasks.find? (fun u => u.id == t.id) = some t)
    (hne : t.status ≠ s) :
    (∀ outcome,
      (handleDragEnd tasks proj (dropEvent t.id s) outcome).optimisticWrite =
        some { t with status := s } ∧
      currentStatus
        (optimisticStore tasks
          (handleDragEnd tasks proj (dropEvent t.id s) outcome)) t.id =
        some s) ∧
    (∀ outcome,
      (handleMobileStatusChange t s proj outcome).optimisticWrite =
        some { t with status := s } ∧
      currentStatus
        (optimisticStore tasks (handleMobileStatusChange t s proj outcome))
        t.id = some s) := by
  have hreq := dragEndRequest_drop tasks t s hfind hne
  have hcur := currentStatus_writeTask tasks t { t with status := s } rfl hfind
  constructor
  · intro outcome
    cases outcome with
    | thrown =>
      refine ⟨by simp [handleDragEnd, hreq], ?_⟩
      simpa [handleDragEnd, hreq, optimisticStore] using hcur
    | resolved p =>
      refine ⟨by simp [handleDragEnd, hreq], ?_⟩
      simpa [handleDragEnd, hreq, optimisticStore] using hcur
  · intro outcome
    cases outcome with
    | thrown =>
      refine ⟨by simp [handleMobileStatusChange, hne], ?_⟩
      simpa [handleMobileStatusChange, hne, optimisticStore] using hcur
    | resolved p =>
      refine ⟨by simp [handleMobileStatusChange, hne], ?_⟩
      simpa [handleMobileStatusChange, hne, optimisticStore] using hcur

theorem C4_optimistic_status_write_witness :
    (handleDragEnd [task0] proj0 (dropEvent task0.id TaskStatus.DONE)
        (MutateResult.resolved (some okPayload))).optimisticWrite =
      some { task0 with status := TaskStatus.DONE } ∧
    currentStatus
      (optimisticStore [task0]
        (handleDragEnd [task0] proj0 (dropEvent task0.id TaskStatus.DONE)
          (MutateResult.resolved (some okPayload)))) task0.id =
      some TaskStatus.DONE :=
  (C4_optimistic_status_write [task0] task0 TaskStatus.DONE proj0
    (by decide) (by decide)).1 (MutateResult.resolved (some okPayload))

/-- C7: requesting a status change to the current status, or for a task id not
found in the cached list, fails the local guard chain and has no effects at
all: no gateway call, no optimistic write, no toast. -/
theorem C7_local_reject_noop (tasks : List Task) (proj : Project)
    (taskId : String) (s : TaskStatus)
    (outcome : MutateResult UpdateStatusPayload)
    (h : tasks.find? (fun u => u.id == taskId) = none ∨
         ∃ t, tasks.find? (fun u => u.id == taskId) = some t ∧ t.status = s) :
    handleDragEnd tasks proj (dropEvent taskId s) outcome = noBoardEffects ∧
    ∀ t : Task, t.status = s →
      handleMobileStatusChange t s proj outcome = noBoardEffects := by
  constructor
  · rcases h with hnone | ⟨t, hfind, hstat⟩
    · simp [handleDragEnd, dragEndRequest, dropEvent, statusMapping_columnId,
        hnone]
    · simp [handleDragEnd, dragEndRequest, dropEvent, statusMapping_columnId,
        hfind, hstat]
  · intro t ht
    simp [handleMobileStatusChange, ht]

theorem C7_local_reject_noop_witness :
    handleDragEnd [task0] proj0 (dropEvent "task-2" TaskStatus.DONE)
      (MutateResult.resolved (some okPayload)) = noBoardEffects ∧
    handleMobileStatusChange task0 TaskStatus.TODO proj0
      (MutateResult.resolved (some okPayload)) = noBoardEffects := by
  refine ⟨?_, ?_⟩
  · exact (C7_local_reject_noop [task0] proj0 "task-2" TaskStatus.DONE
      (MutateResult.resolved (some okPayload)) (Or.inl (by decide))).1
  · exact (C7_local_reject_noop [task0] proj0 task0.id TaskStatus.TODO
      (MutateResult.resolved (some okPayload))
      (Or.inr ⟨task0, by decide, by decide⟩)).2 task0 (by decide)

/-- C9: a drag-end event with a missing active or over reference, or whose
drop target is not one of the three status columns, returns before the mutate
call: no gateway call, no status change, no toast. -/
theorem C9_invalid_drop_noop (tasks : List Task) (proj : Project)
    (event : DragEndEvent) (outcome : MutateResult UpdateStatusPayload)
    (h : event.over = none ∨ event.active = none ∨
         ∃ z, event.over = some z ∧ statusMapping z = none) :
    handleDragEnd tasks proj event outcome = noBoardEffects := by
  obtain ⟨a, o⟩ := event
  rcases h with h1 | h2 | ⟨z, hz, hm⟩
  · simp only at h1
    subst h1
    cases a <;> simp [handleDragEnd, dragEndRequest]
  · simp only at h2
    subst h2
    cases o <;> simp [handleDragEnd, dragEndRequest]
  · simp only at hz
    subst hz
    cases a <;> simp [handleDragEnd, dragEndRequest, hm]

theorem C9_invalid_drop_noop_witness :
    handleDragEnd [task0] proj0
      { active := some "task-1", over := some "outside-any-column" }
      (MutateResult.resolved (some okPayload)) = noBoardEffects :=
  C9_invalid_drop_noop [task0] proj0
    { active := some "task-1", over := some "outside-any-column" }
    (MutateResult.resolved (some okPayload))
    (Or.inr (Or.inr ⟨"outside-any-column", rfl, by decide⟩))

/-- C10: useToast throws exactly when no ToastProvider is above the caller,
returning the provider operations otherwise, and every showIntegrationToast
call appends exactly one toast of type info with a 4000 ms duration. -/
theorem C10_toast_hook_contract :
    useToast none =
      Except.error "useToast must be used within a ToastProvider" ∧
    (∀ c : ToastContextType, useToast (some c) = Except.ok c) ∧
    ∀ (toasts : List ToastMessage) (freshId : String)
      (service : IntegrationService) (action : String)
      (target : Option String),
      showIntegrationToast toasts freshId service action target =
        toasts ++ [{ id := freshId, type := ToastType.info,
                     title := (serviceConfig service).name ++ " Integration",
                     message := some (action ++ targetSuffix target),
                     duration := some 4000,
                     icon := some (serviceConfig service).icon }] := by
  refine ⟨rfl, fun c => rfl, ?_⟩
  intro toasts freshId service action target
  rfl

theorem statusChangeToasts_eq (t : Task) (s : TaskStatus) (slug : String) :
    statusChangeToasts t s slug =
      (if t.assigneeEmail = "" then []
       else [{ service := IntegrationService.email,
               action := "Status update sent",
               target := some t.assigneeEmail }]) ++
      [if s = TaskStatus.DONE then
        { service := IntegrationService.slack,
          action := "Task completion posted", target := some ("#" ++ slug) }
       else
        { service := IntegrationService.slack,
          action := "Status change posted", target := some ("#" ++ slug) }] := by
  unfold statusChangeToasts
  by_cases h : t.assigneeEmail = "" <;> simp [h]

theorem editTask_no_toasts (tk : Task) (f g : String → String)
    (vals : SubmitValues) (uo so : MutateResult UpdateStatusPayload) :
    (editTaskHandleSubmit tk f g vals uo so).toasts = [] := by
  cases uo <;> cases so <;>
    simp [editTaskHandleSubmit, apply_ite (fun m : ModalEffects => m.toasts)]

theorem commentPanel_no_toasts (tk : Task) (st : CommentFormState)
    (outcome : MutateResult CommentPayload) :
    (commentPanelSubmit tk st outcome).toasts = [] := by
  cases outcome <;>
    simp [commentPanelSubmit,
      apply_ite (fun c : CommentPanelEffects => c.toasts)]

/-- C1 fails on the code: a gateway rejection that settles under errorPolicy
"all" (here a payload with success false) still runs the toast block of
handleDragEnd, so both integration toasts are emitted for the failed
request. -/
theorem C1_failed_request_still_toasts :
    (handleDragEnd [task0] proj0 (dropEvent task0.id TaskStatus.DONE)
        (MutateResult.resolved (some failPayload))).toasts =
      [{ service := IntegrationService.email, action := "Status update sent",
         target := some "john@example.com" },
       { service := IntegrationService.slack,
         action := "Task completion posted", target := some "#acme-corp" }] ∧
    (handleDragEnd [task0] proj0 (dropEvent task0.id TaskStatus.DONE)
        (MutateResult.resolved (some failPayload))).toasts ≠ [] := by
  decide

/-- C1 amended: when the mutate call rejects (transport failure) the visible
status reverts and no toast is emitted; when it settles with a failed or
missing payload (gateway rejection, or a GraphQL error under errorPolicy
"all") the visible status still reverts, but the toast block runs exactly as
on success. -/
theorem C1_failure_revert_and_toasts (tasks : List Task) (t : Task)
    (s : TaskStatus) (proj : Project)
    (outcome : MutateResult UpdateStatusPayload)
    (hfind : tasks.find? (fun u => u.id == t.id) = some t)
    (hne : t.status ≠ s)
    (hfail : outcome = MutateResult.thrown ∨
             ∃ p, outcome = MutateResult.resolved p ∧
               payloadSuccess p = false) :
    storeAfterResolution tasks outcome = tasks ∧
    (outcome = MutateResult.thrown →
      (handleDragEnd tasks proj (dropEvent t.id s) outcome).toasts = []) ∧
    (∀ p, outcome = MutateResult.resolved p →
      (handleDragEnd tasks proj (dropEvent t.id s) outcome).toasts =
        statusChangeToasts t s proj.organization.slug) := by
  have hreq := dragEndRequest_drop tasks t s hfind hne
  refine ⟨?_, ?_, ?_⟩
  · rcases hfail with h | ⟨p, hp, hs⟩
    · subst h; rfl
    · subst hp
      cases p with
      | none => rfl
      | some q =>
        simp only [payloadSuccess] at hs
        simp [storeAfterResolution, hs]
  · intro h
    subst h
    simp [handleDragEnd, hreq]
  · intro p h
    subst h
    simp [handleDragEnd, hreq]

theorem C1_failure_revert_and_toasts_witness :
    storeAfterResolution [task0]
      (MutateResult.resolved (some failPayload)) = [task0] ∧
    (handleDragEnd [task0] proj0 (dropEvent task0.id TaskStatus.DONE)
        (MutateResult.resolved (some failPayload))).toasts =
      statusChangeToasts task0 TaskStatus.DONE proj0.organization.slug := by
  have h := C1_failure_revert_and_toasts [task0] task0 TaskStatus.DONE proj0
    (MutateResult.resolved (some failPayload)) (by decide) (by decide)
    (Or.inr ⟨some failPayload, rfl, by decide⟩)
  exact ⟨h.1, h.2.2 (some failPayload) rfl⟩

/-- C2 fails on the code: the quick status update of the edit-task modal
commits (the gateway call is issued and the modal closes on success) yet emits
no notification toast at all. -/
theorem C2_modal_commit_emits_nothing :
    (editTaskHandleSubmit task0 (fun x => x) (fun x => x) values0
        (MutateResult.resolved (some okPayload))
        (MutateResult.resolved (some okPayload))).closed = true ∧
    (editTaskHandleSubmit task0 (fun x => x) (fun x => x) values0
        (MutateResult.resolved (some okPayload))
        (MutateResult.resolved (some okPayload))).statusCalls =
      [(task0.id, TaskStatus.DONE)] ∧
    (editTaskHandleSubmit task0 (fun x => x) (fun x => x) values0
        (MutateResult.resolved (some okPayload))
        (MutateResult.resolved (some okPayload))).toasts = [] := by
  decide

/-- C2 amended: on the board drag and mobile menu paths a settled successful
call emits one email toast when the assignee address is non-empty and exactly
one slack toast, the completion variant when the new status is DONE and the
status-change variant otherwise (no additional completion toast on top of a
status-change one); the edit-task modal quick status update emits no toast on
any path. -/
theorem C2_commit_toast_fanout (tasks : List Task) (t : Task) (s : TaskStatus)
    (proj : Project) (p : UpdateStatusPayload)
    (hfind : tasks.find? (fun u => u.id == t.id) = some t)
    (hne : t.status ≠ s) (_hsucc : p.success = true) :
    ((handleDragEnd tasks proj (dropEvent t.id s)
        (MutateResult.resolved (some p))).toasts =
      (if t.assigneeEmail = "" then []
       else [{ service := IntegrationService.email,
               action := "Status update sent",
               target := some t.assigneeEmail }]) ++
      [if s = TaskStatus.DONE then
        { service := IntegrationService.slack,
          action := "Task completion posted",
          target := some ("#" ++ proj.organization.slug) }
       else
        { service := IntegrationService.slack,
          action := "Status change posted",
          target := some ("#" ++ proj.organization.slug) }]) ∧
    ((handleMobileStatusChange t s proj
        (MutateResult.resolved (some p))).toasts =
      (if t.assigneeEmail = "" then []
       else [{ service := IntegrationService.email,
               action := "Status update sent",
               target := some t.assigneeEmail }]) ++
      [if s = TaskStatus.DONE then
        { service := IntegrationService.slack,
          action := "Task completion posted",
          target := some ("#" ++ proj.organization.slug) }
       else
        { service := IntegrationService.slack,
          action := "Status change posted",
          target := some ("#" ++ proj.organization.slug) }]) ∧
    (∀ (tk : Task) (f g : String → String) (vals : SubmitValues)
       (uo so : MutateResult UpdateStatusPayload),
      (editTaskHandleSubmit tk f g vals uo so).toasts = []) := by
  have hreq := dragEndRequest_drop tasks t s hfind hne
  refine ⟨?_, ?_, fun tk f g vals uo so => editTask_no_toasts tk f g vals uo so⟩
  · have hd : (handleDragEnd tasks proj (dropEvent t.id s)
        (MutateResult.resolved (some p))).toasts =
        statusChangeToasts t s proj.organization.slug := by
      simp [handleDragEnd, hreq]
    rw [hd]
    exact statusChangeToasts_eq t s proj.organization.slug
  · have hm : (handleMobileStatusChange t s proj
        (MutateResult.resolved (some p))).toasts =
        statusChangeToasts t s proj.organization.slug := by
      simp [handleMobileStatusChange, hne]
    rw [hm]
    exact statusChangeToasts_eq t s proj.organization.slug

theorem C2_commit_toast_fanout_witness :
    (handleDragEnd [task0] proj0 (dropEvent task0.id TaskStatus.IN_PROGRESS)
        (MutateResult.resolved (some okPayload))).toasts =
      (if task0.assigneeEmail = "" then []
       else [{ service := IntegrationService.email,
               action := "Status update sent",
               target := some task0.assigneeEmail }]) ++
      [if TaskStatus.IN_PROGRESS = TaskStatus.DONE then
        { service := IntegrationService.slack,
          action := "Task completion posted",
          target := some ("#" ++ proj0.organization.slug) }
       else
        { service := IntegrationService.slack,
          action := "Status change posted",
          target := some ("#" ++ proj0.organization.slug) }] :=
  (C2_commit_toast_fanout [task0] task0 TaskStatus.IN_PROGRESS proj0 okPayload
    (by decide) (by decide) (by decide)).1

/-- C6: a settled successful transition to DONE for a task with a non-empty
assignee address produces exactly two delivery attempts, one email toast
targeting the assignee address and one slack toast targeting the room derived
from the organization slug, while the only task-state effects are the single
gateway call with its optimistic write and, on settlement, the authoritative
task written by the successful payload. -/
theorem C6_done_commit_two_deliveries (tasks : List Task) (t : Task)
    (proj : Project) (p : UpdateStatusPayload)
    (hfind : tasks.find? (fun u => u.id == t.id) = some t)
    (hnd : t.status ≠ TaskStatus.DONE)
    (hassignee : t.assigneeEmail ≠ "")
    (hsucc : p.success = true) :
    (handleDragEnd tasks proj (dropEvent t.id TaskStatus.DONE)
        (MutateResult.resolved (some p))).toasts =
      [{ service := IntegrationService.email, action := "Status update sent",
         target := some t.assigneeEmail },
       { service := IntegrationService.slack,
         action := "Task completion posted",
         target := some ("#" ++ proj.organization.slug) }] ∧
    (handleDragEnd tasks proj (dropEvent t.id TaskStatus.DONE)
        (MutateResult.resolved (some p))).gatewayCall =
      some (t.id, TaskStatus.DONE) ∧
    (handleDragEnd tasks proj (dropEvent t.id TaskStatus.DONE)
        (MutateResult.resolved (some p))).optimisticWrite =
      some { t with status := TaskStatus.DONE } ∧
    storeAfterResolution tasks (MutateResult.resolved (some p)) =
      (match p.task with
       | some w => writeTask tasks w
       | none => tasks) := by
  have hreq := dragEndRequest_drop tasks t TaskStatus.DONE hfind hnd
  refine ⟨?_, ?_, ?_, ?_⟩
  · simp [handleDragEnd, hreq, statusChangeToasts, hassignee]
  · simp [handleDragEnd, hreq]
  · simp [handleDragEnd, hreq]
  · simp [storeAfterResolution, hsucc]

theorem C6_done_commit_two_deliveries_witness :
    (handleDragEnd [task0] proj0 (dropEvent task0.id TaskStatus.DONE)
        (MutateResult.resolved (some okPayload))).toasts =
      [{ service := IntegrationService.email, action := "Status update sent",
         target := some task0.assigneeEmail },
       { service := IntegrationService.slack,
         action := "Task completion posted",
         target := some ("#" ++ proj0.organization.slug) }] :=
  (C6_done_commit_two_deliveries [task0] task0 proj0 okPayload
    (by decide) (by decide) (by decide) (by decide)).1

/-- C8 fails on the code: a transport failure of the drag path's gateway call
reaches only the developer console; no user-visible error and no toast is
produced even though the gateway call was issued. -/
theorem C8_board_failure_not_surfaced :
    (handleDragEnd [task0] proj0 (dropEvent task0.id TaskStatus.DONE)
        MutateResult.thrown).gatewayCall = some (task0.id, TaskStatus.DONE) ∧
    (handleDragEnd [task0] proj0 (dropEvent task0.id TaskStatus.DONE)
        MutateResult.thrown).reportedErrors = [] ∧
    (handleDragEnd [task0] proj0 (dropEvent task0.id TaskStatus.DONE)
        MutateResult.thrown).toasts = [] ∧
    (handleDragEnd [task0] proj0 (dropEvent task0.id TaskStatus.DONE)
        MutateResult.thrown).consoleErrors = 1 := by
  decide

/-- C8 amended: the edit-task modal quick status update surfaces every gateway
failure (the payload error list on a settled failure, a fallback message when
the payload is missing, and the generic network message on a transport
failure), whereas the board drag and mobile paths surface no error to the user
on any outcome. -/
theorem C8_failure_surfacing (tk : Task) (f g : String → String)
    (vals : SubmitValues) (uo : MutateResult UpdateStatusPayload)
    (p : UpdateStatusPayload)
    (h1 : vals.status ≠ tk.status) (h2 : vals.title = tk.title)
    (h3 : vals.description = tk.description)
    (h4 : vals.assigneeEmail = tk.assigneeEmail)
    (h5 : formatDateForInput f tk.dueDate = vals.dueDate) :
    (editTaskHandleSubmit tk f g vals uo MutateResult.thrown).errors =
      ["Network error. Please try again."] ∧
    ((editTaskHandleSubmit tk f g vals uo
        (MutateResult.resolved (some p))).errors =
      if p.success then [] else p.errors) ∧
    ((editTaskHandleSubmit tk f g vals uo
        (MutateResult.resolved none)).errors =
      ["Failed to update task status"]) ∧
    (∀ (tasks : List Task) (proj : Project) (ev : DragEndEvent)
       (outcome : MutateResult UpdateStatusPayload),
      (handleDragEnd tasks proj ev outcome).reportedErrors = [] ∧
      ∀ (t : Task) (s : TaskStatus),
        (handleMobileStatusChange t s proj outcome).reportedErrors = []) := by
  refine ⟨?_, ?_, ?_, ?_⟩
  · simp [editTaskHandleSubmit, h1, h2, h3, h4, h5]
  · by_cases hp : p.success
    · simp [editTaskHandleSubmit, h1, h2, h3, h4, h5, payloadSuccess, hp]
    · simp [editTaskHandleSubmit, h1, h2, h3, h4, h5, payloadSuccess, hp]
  · simp [editTaskHandleSubmit, h1, h2, h3, h4, h5, payloadSuccess]
  · intro tasks proj ev outcome
    constructor
    · cases hr : dragEndRequest tasks ev with
      | none => simp [handleDragEnd, hr, noBoardEffects]
      | some req => cases outcome <;> simp [handleDragEnd, hr, noBoardEffects]
    · intro t s
      by_cases hts : t.status = s
      · simp [handleMobileStatusChange, hts, noBoardEffects]
      · cases outcome <;> simp [handleMobileStatusChange, hts]

theorem C8_failure_surfacing_witness :
    (editTaskHandleSubmit task0 (fun x => x) (fun x => x) values0
        (MutateResult.resolved (some okPayload)) MutateResult.thrown).errors =
      ["Network error. Please try again."] :=
  (C8_failure_surfacing task0 (fun x => x) (fun x => x) values0
    (MutateResult.resolved (some okPayload)) failPayload
    (by decide) rfl rfl rfl rfl).1

/-- C3: under the spec-modelled orchestrator rules a COMMENTED event never
selects the chat channel, and selects the email channel exactly when an
assignee address is present and different from the comment author; the
frontend comment submit handler itself dispatches no toast on any path. -/
theorem C3_commented_email_only :
    (∀ (assignee author : Option String),
      Channel.chat ∉ channelsFor assignee author EventKind.COMMENTED) ∧
    (∀ (assignee author : Option String),
      Channel.email ∈ channelsFor assignee author EventKind.COMMENTED ↔
        assignee.isSome = true ∧ assignee ≠ author) ∧
    (∀ (tk : Task) (st : CommentFormState)
       (outcome : MutateResult CommentPayload),
      (commentPanelSubmit tk st outcome).toasts = []) := by
  refine ⟨?_, ?_, fun tk st outcome => commentPanel_no_toasts tk st outcome⟩
  · intro assignee author
    cases assignee with
    | none => simp [channelsFor]
    | some a =>
      by_cases h : (some a : Option String) ≠ author
      · simp [channelsFor, h]
      · simp [channelsFor, h]
  · intro assignee author
    cases assignee with
    | none => simp [channelsFor]
    | some a =>
      by_cases h : (some a : Option String) ≠ author
      · simp [channelsFor, h]
      · simp [channelsFor, h]

end ProjMgmt
